import Mathlib

set_option linter.unusedVariables false

/-! Shallow embedding of the analytics server (`server.py`): the Visit/Event
data model, the scoped storage session, the two ingestion handlers
(`track_visit`, `track_event`), the aggregation read (`get_analytics`) and the
dashboard read (`dashboard`). -/

/-- Values of the JSON column `event_data` (numbers modelled as integers). -/
inductive Json where
  | null : Json
  | bool (b : Bool) : Json
  | num (n : Int) : Json
  | str (s : String) : Json
  | arr (xs : List Json) : Json
  | obj (fields : List (String × Json)) : Json
deriving Repr

/-- Timestamps of the `DateTime` columns: calendar date plus second of day. -/
structure DateTime where
  year : Nat
  month : Nat
  day : Nat
  secOfDay : Nat
deriving Repr, DecidableEq

/-- Zero-padding to two digits, as `%m` / `%d` format. -/
def pad2 (n : Nat) : String :=
  if n < 10 then "0" ++ toString n else toString n

/-- Zero-padding to four digits, as the `%Y` format. -/
def pad4 (n : Nat) : String :=
  if n < 10 then "000" ++ toString n
  else if n < 100 then "00" ++ toString n
  else if n < 1000 then "0" ++ toString n
  else toString n

/-- Translation of `visit.timestamp.strftime("%Y-%m-%d")` from `dashboard`. -/
def DateTime.dateStr (t : DateTime) : String :=
  pad4 t.year ++ "-" ++ pad2 t.month ++ "-" ++ pad2 t.day

/-- Chronological comparison used by `order_by(Visit.timestamp)`. -/
def DateTime.le (a b : DateTime) : Bool :=
  decide (a.year < b.year) ||
    (decide (a.year = b.year) &&
      (decide (a.month < b.month) ||
        (decide (a.month = b.month) &&
          (decide (a.day < b.day) ||
            (decide (a.day = b.day) && decide (a.secOfDay ≤ b.secOfDay))))))

/-- A committed row of the `Visit` table (`class Visit`, lines 39-43). -/
structure Visit where
  id : Nat
  timestamp : DateTime
  is_mobile : Bool
  screen_resolution : String
deriving Repr, DecidableEq

/-- A committed row of the `Event` table (`class Event`, lines 45-49):
`event_type` is declared `nullable=False` (line 48), so a committed row always
carries a string; `event_data` is a plain JSON column and may be null. -/
structure Event where
  id : Nat
  timestamp : DateTime
  event_type : String
  event_data : Option Json
deriving Repr

/-- A `Visit` object before flush: no id has been assigned yet. -/
structure VisitData where
  timestamp : DateTime
  is_mobile : Bool
  screen_resolution : String
deriving Repr, DecidableEq

/-- An `Event` object before flush: the Python object happily holds None for
`event_type`; the NOT NULL column constraint only strikes at flush time. -/
structure EventData where
  timestamp : DateTime
  event_type : Option String
  event_data : Option Json
deriving Repr

/-- The committed store: the two tables plus the auto-increment counters the
storage backend owns. -/
structure DB where
  visits : List Visit
  events : List Event
  nextVisitId : Nat
  nextEventId : Nat
deriving Repr

/-- Durably appending one visit row, assigning the next id. -/
def DB.insertVisit (db : DB) (v : VisitData) : DB :=
  { db with
    visits := db.visits ++ [⟨db.nextVisitId, v.timestamp, v.is_mobile, v.screen_resolution⟩]
    nextVisitId := db.nextVisitId + 1 }

/-- Durably appending one event row, assigning the next id; the NOT NULL
constraint on `event_type` (line 48) rejects a null with an IntegrityError. -/
def DB.insertEvent (db : DB) (e : EventData) : Except String DB :=
  match e.event_type with
  | none => .error "IntegrityError: NOT NULL constraint failed: event.event_type"
  | some ty =>
    .ok { db with
      events := db.events ++ [⟨db.nextEventId, e.timestamp, ty, e.event_data⟩]
      nextEventId := db.nextEventId + 1 }

/-- Flushing pending event objects one by one; the first constraint violation
aborts the flush. -/
def DB.flushEvents (db : DB) : List EventData → Except String DB
  | [] => .ok db
  | e :: rest =>
    match db.insertEvent e with
    | .error msg => .error msg
    | .ok db2 => db2.flushEvents rest

/-- The scoped `db.session`: pending uncommitted objects over the committed
store, plus whether the session is still open. -/
structure Session where
  committed : DB
  pendingVisits : List VisitData
  pendingEvents : List EventData
  isOpen : Bool
deriving Repr

/-- A fresh session acquired at request start. -/
def Session.openNew (db : DB) : Session :=
  ⟨db, [], [], true⟩

/-- Translation of `db.session.add(visit)`. -/
def Session.addVisit (s : Session) (v : VisitData) : Session :=
  { s with pendingVisits := s.pendingVisits ++ [v] }

/-- Translation of `db.session.add(event)`. -/
def Session.addEvent (s : Session) (e : EventData) : Session :=
  { s with pendingEvents := s.pendingEvents ++ [e] }

/-- Translation of `db.session.commit()`: flushes the pending objects into the
store, raising if the storage backend fails (`storageFail = some msg` injects
the failure whose text the raised exception carries) or if a pending event
violates the NOT NULL constraint on `event_type`. -/
def Session.commit (s : Session) (storageFail : Option String) : Except String Session :=
  match storageFail with
  | some msg => .error msg
  | none =>
    match (s.pendingVisits.foldl DB.insertVisit s.committed).flushEvents s.pendingEvents with
    | .error msg => .error msg
    | .ok db2 => .ok { s with committed := db2, pendingVisits := [], pendingEvents := [] }

/-- Translation of `db.session.rollback()`: discards the pending objects. -/
def Session.rollback (s : Session) : Session :=
  { s with pendingVisits := [], pendingEvents := [] }

/-- Translation of `db.session.close()` in the `finally` block. -/
def Session.close (s : Session) : Session :=
  { s with isOpen := false }

/-- The parsed body of a `track-visit` request; both fields optional, matching
`data.get("isMobile", False)` and `data.get("screenResolution", "unknown")`. -/
structure VisitPayload where
  isMobile : Option Bool
  screenResolution : Option String
deriving Repr, DecidableEq

/-- The parsed body of a `track-event` request; `data.get("type")` and
`data.get("data")` default to null. -/
structure EventPayload where
  type : Option String
  data : Option Json
deriving Repr

/-- The JSON body a tracking handler answers with. -/
inductive TrackResp where
  | success : TrackResp
  | error (message : String) : TrackResp
deriving Repr, DecidableEq

/-- What a tracking handler leaves behind: the session, the HTTP status and
the response body. -/
structure HandlerResult where
  session : Session
  status : Nat
  resp : TrackResp
deriving Repr

/-- Handler `track_visit` (lines 59-74): try / except / finally over the
session.  `req` is the outcome of `request.json` plus field extraction (an
exception there, e.g. a non-JSON body, lands in the except branch); the record
is built with the documented defaults, added, committed; any failure rolls
back and reports the failure text; the finally branch closes the session on
every path. -/
def track_visit (db : DB) (now : DateTime) (req : Except String VisitPayload)
    (storageFail : Option String) : HandlerResult :=
  let s0 := Session.openNew db
  match req with
  | .error msg => ⟨(s0.rollback).close, 500, .error msg⟩
  | .ok p =>
    let visit : VisitData :=
      { timestamp := now
        is_mobile := p.isMobile.getD false
        screen_resolution := p.screenResolution.getD "unknown" }
    let s1 := s0.addVisit visit
    match s1.commit storageFail with
    | .ok s2 => ⟨s2.close, 200, .success⟩
    | .error msg => ⟨(s1.rollback).close, 500, .error msg⟩

/-- Handler `track_event` (lines 76-91): same discipline, record built from
the optional `type` and `data` fields with null defaults. -/
def track_event (db : DB) (now : DateTime) (req : Except String EventPayload)
    (storageFail : Option String) : HandlerResult :=
  let s0 := Session.openNew db
  match req with
  | .error msg => ⟨(s0.rollback).close, 500, .error msg⟩
  | .ok p =>
    let ev : EventData := { timestamp := now, event_type := p.type, event_data := p.data }
    let s1 := s0.addEvent ev
    match s1.commit storageFail with
    | .ok s2 => ⟨s2.close, 200, .success⟩
    | .error msg => ⟨(s1.rollback).close, 500, .error msg⟩

/-- One `{type, data}` pair of the `events` list in the analytics response. -/
structure EventOut where
  type : String
  data : Option Json
deriving Repr

/-- The `analytics_data` composite returned by `/api/analytics`. -/
structure Analytics where
  total_visits : Nat
  mobile_visits : Nat
  desktop_visits : Nat
  events : List EventOut
deriving Repr

/-- Aggregation body of `get_analytics` (lines 96-104): full scans, counts and
the events projection.  The generator `sum(1 for v in visits if p(v))` is
translated literally as the sum of ones over the filtered list. -/
def get_analytics (db : DB) : Analytics :=
  { total_visits := db.visits.length
    mobile_visits := ((db.visits.filter (fun v => v.is_mobile)).map (fun _ => 1)).sum
    desktop_visits := ((db.visits.filter (fun v => !v.is_mobile)).map (fun _ => 1)).sum
    events := db.events.map (fun e => ⟨e.event_type, e.event_data⟩) }

/-- One step of `visit_dates[date_str] += 1` on a `defaultdict(int)`: a Python
dict keeps insertion order of first key occurrence, modelled as an association
list. -/
def bumpDate : List (String × Nat) → String → List (String × Nat)
  | [], k => [(k, 1)]
  | (k0, n) :: rest, k =>
    if k0 = k then (k0, n + 1) :: rest else (k0, n) :: bumpDate rest k

/-- The values the `dashboard` handler computes and hands to the template. -/
structure DashboardData where
  total_visits : Nat
  mobile_visits : Nat
  desktop_visits : Nat
  visit_dates : List String
  visit_counts : List Nat
deriving Repr, DecidableEq

/-- Translation of `Visit.query.order_by(Visit.timestamp).all()`. -/
def sortedVisits (db : DB) : List Visit :=
  db.visits.mergeSort (fun a b => DateTime.le a.timestamp b.timestamp)

/-- The filled `visit_dates` defaultdict over the enumerated visits. -/
def visitDatesDict (visits : List Visit) : List (String × Nat) :=
  visits.foldl (fun acc v => bumpDate acc v.timestamp.dateStr) []

/-- Translation of `sorted_dates = sorted(visit_dates.keys())`. -/
def sortedDates (dict : List (String × Nat)) : List String :=
  (dict.map Prod.fst).mergeSort (fun a b => decide (a ≤ b))

/-- Computation body of `dashboard` (lines 112-140): visits ordered by
timestamp, basic stats with the desktop count obtained by subtraction, the
per-date defaultdict, the sorted key list and the parallel count list
`[visit_dates[date] for date in sorted_dates]`. -/
def dashboard (db : DB) : DashboardData :=
  let visits := sortedVisits db
  let total_visits := visits.length
  let mobile_visits := ((visits.filter (fun v => v.is_mobile)).map (fun _ => 1)).sum
  let desktop_visits := total_visits - mobile_visits
  let visit_dates := visitDatesDict visits
  let sorted_dates := sortedDates visit_dates
  let visit_counts := sorted_dates.map (fun d => (visit_dates.lookup d).getD 0)
  { total_visits := total_visits
    mobile_visits := mobile_visits
    desktop_visits := desktop_visits
    visit_dates := sorted_dates
    visit_counts := visit_counts }

/-- What a read route leaves behind: session, status and body. -/
structure ReadResult (α : Type) where
  session : Session
  status : Nat
  body : Except String α

/-- Route `/api/analytics` (lines 93-110): a read failure
(`readFail = some msg`) lands in the except branch as a 500; the session is
closed in the finally branch either way. -/
def analytics_route (db : DB) (readFail : Option String) : ReadResult Analytics :=
  let s0 := Session.openNew db
  match readFail with
  | some msg => ⟨s0.close, 500, .error msg⟩
  | none => ⟨s0.close, 200, .ok (get_analytics db)⟩

/-- Route `/dashboard` (lines 112-144): same read discipline around the
dashboard computation. -/
def dashboard_route (db : DB) (readFail : Option String) : ReadResult DashboardData :=
  let s0 := Session.openNew db
  match readFail with
  | some msg => ⟨s0.close, 500, .error msg⟩
  | none => ⟨s0.close, 200, .ok (dashboard db)⟩

/-! Helper lemmas. -/

/-- Summing a one for each element counts the elements. -/
lemma sum_map_one {α : Type} (l : List α) : (l.map (fun _ => (1 : Nat))).sum = l.length := by
  induction l with
  | nil => rfl
  | cons a t ih => simp [ih]; omega

/-- The two generator sums of the source count with `countP`. -/
lemma sum_ones_filter {α : Type} (l : List α) (p : α → Bool) :
    ((l.filter p).map (fun _ => (1 : Nat))).sum = l.countP p := by
  rw [sum_map_one, List.countP_eq_length_filter]

/-! Claim theorems, first batch. -/

/-- C2: the analytics response counts all visits, the mobile ones, the desktop
ones, and the total is the sum of the two device counts. -/
theorem get_analytics_counts (db : DB) :
    (get_analytics db).total_visits = db.visits.length ∧
    (get_analytics db).mobile_visits = db.visits.countP (fun v => v.is_mobile) ∧
    (get_analytics db).desktop_visits = db.visits.countP (fun v => !v.is_mobile) ∧
    (get_analytics db).total_visits =
      (get_analytics db).mobile_visits + (get_analytics db).desktop_visits := by
  refine ⟨rfl, ?_, ?_, ?_⟩
  · exact sum_ones_filter db.visits (fun v => v.is_mobile)
  · exact sum_ones_filter db.visits (fun v => !v.is_mobile)
  · show db.visits.length =
      ((db.visits.filter (fun v => v.is_mobile)).map (fun _ => (1 : Nat))).sum +
        ((db.visits.filter (fun v => !v.is_mobile)).map (fun _ => (1 : Nat))).sum
    rw [sum_ones_filter, sum_ones_filter]
    induction db.visits with
    | nil => rfl
    | cons v t ih =>
      rw [List.countP_cons, List.countP_cons, List.length_cons, ih]
      cases v.is_mobile <;> simp <;> omega

/-- C4: submitting track-visit with an empty payload succeeds and stores a
visit with the defaults false and "unknown". -/
theorem track_visit_empty_body (db : DB) (now : DateTime) :
    (track_visit db now (Except.ok ⟨none, none⟩) none).status = 200 ∧
    (track_visit db now (Except.ok ⟨none, none⟩) none).resp = TrackResp.success ∧
    (track_visit db now (Except.ok ⟨none, none⟩) none).session.committed.visits =
      db.visits ++ [⟨db.nextVisitId, now, false, "unknown"⟩] :=
  ⟨rfl, rfl, rfl⟩

/-- C5 counterexample: at a concrete store, a track-event call whose payload
omits the type field does not answer success and persists nothing: the NOT
NULL constraint on event_type fails the commit, contrary to the claim. -/
theorem track_event_missing_type_counterexample :
    (track_event (DB.mk [] [] 1 1) (DateTime.mk 2024 1 1 0)
      (Except.ok (EventPayload.mk none none)) none).resp ≠ TrackResp.success ∧
    (track_event (DB.mk [] [] 1 1) (DateTime.mk 2024 1 1 0)
      (Except.ok (EventPayload.mk none none)) none).status = 500 ∧
    (track_event (DB.mk [] [] 1 1) (DateTime.mk 2024 1 1 0)
      (Except.ok (EventPayload.mk none none)) none).session.committed.events = [] :=
  ⟨fun h => TrackResp.noConfusion h, rfl, rfl⟩

/-- C5 (amended): a track-event payload without a type field passes the
handler with no validation of its own, but the NOT NULL constraint on the
event_type column rejects the insert at commit: nothing is persisted, the
handler rolls back and answers a 500 error carrying the constraint failure
text, and the session is closed. -/
theorem track_event_missing_type_rejected (db : DB) (now : DateTime) (d : Option Json) :
    (track_event db now (Except.ok ⟨none, d⟩) none).status = 500 ∧
    (track_event db now (Except.ok ⟨none, d⟩) none).resp =
      TrackResp.error "IntegrityError: NOT NULL constraint failed: event.event_type" ∧
    (track_event db now (Except.ok ⟨none, d⟩) none).session.committed = db ∧
    (track_event db now (Except.ok ⟨none, d⟩) none).session.isOpen = false ∧
    (track_event db now (Except.ok ⟨none, d⟩) none).session.pendingEvents = [] :=
  ⟨rfl, rfl, rfl, rfl, rfl⟩

/-- C6: a value submitted as data with a type in a successful track-event call
reappears as the same pair in the events list of the analytics read. -/
theorem track_event_roundtrip (db : DB) (now : DateTime) (t : String) (d : Json) :
    (track_event db now (Except.ok ⟨some t, some d⟩) none).status = 200 ∧
    EventOut.mk t (some d) ∈
      (get_analytics
        (track_event db now (Except.ok ⟨some t, some d⟩) none).session.committed).events := by
  refine ⟨rfl, ?_⟩
  show EventOut.mk t (some d) ∈
    (db.events ++ [Event.mk db.nextEventId now t (some d)]).map
      (fun e => EventOut.mk e.event_type e.event_data)
  rw [List.map_append]
  exact List.mem_append_right _ (by simp)

/-- C8: with zero stored visits the dashboard computes zero totals and empty
date and count series. -/
theorem dashboard_empty (db : DB) (h : db.visits = []) :
    (dashboard db).total_visits = 0 ∧
    (dashboard db).mobile_visits = 0 ∧
    (dashboard db).desktop_visits = 0 ∧
    (dashboard db).visit_dates = [] ∧
    (dashboard db).visit_counts = [] := by
  have hs : sortedVisits db = [] := by
    rw [sortedVisits, h, List.mergeSort_nil]
  simp [dashboard, hs, visitDatesDict, sortedDates]

/-- Closed instance of the C8 theorem at an empty store. -/
theorem dashboard_empty_witness :
    (DB.mk [] [] 1 1).visits = [] ∧
    ((dashboard (DB.mk [] [] 1 1)).total_visits = 0 ∧
      (dashboard (DB.mk [] [] 1 1)).mobile_visits = 0 ∧
      (dashboard (DB.mk [] [] 1 1)).desktop_visits = 0 ∧
      (dashboard (DB.mk [] [] 1 1)).visit_dates = [] ∧
      (dashboard (DB.mk [] [] 1 1)).visit_counts = []) :=
  ⟨rfl, dashboard_empty (DB.mk [] [] 1 1) rfl⟩

/-- C10: the dashboard desktop count, computed by subtraction, agrees with the
analytics desktop count, computed by direct counting. -/
theorem dashboard_desktop_refines (db : DB) :
    (dashboard db).desktop_visits = (get_analytics db).desktop_visits := by
  show (db.visits.mergeSort _).length -
      (((db.visits.mergeSort _).filter (fun v => v.is_mobile)).map (fun _ => (1:Nat))).sum = _
  have hperm := List.mergeSort_perm db.visits (fun a b => DateTime.le a.timestamp b.timestamp)
  rw [sum_ones_filter, hperm.length_eq, hperm.countP_eq]
  show db.visits.length - db.visits.countP (fun v => v.is_mobile) =
    ((db.visits.filter (fun v => !v.is_mobile)).map (fun _ => (1:Nat))).sum
  rw [sum_ones_filter]
  induction db.visits with
  | nil => rfl
  | cons v t ih =>
    rw [List.countP_cons, List.countP_cons, List.length_cons]
    have hle : t.countP (fun v => v.is_mobile) ≤ t.length := List.countP_le_length _
    cases v.is_mobile <;> simp <;> omega

/-- C1: a successful track-visit call appends exactly one visit, moving the
analytics counters by one on the side the submitted flag selects, and a second
successful call with the identical body appends a second, distinct record,
moving the total by two. -/
theorem track_visit_increments (db : DB) (now now2 : DateTime) (p : VisitPayload) :
    (track_visit db now (Except.ok p) none).status = 200 ∧
    (get_analytics (track_visit db now (Except.ok p) none).session.committed).total_visits =
      (get_analytics db).total_visits + 1 ∧
    (get_analytics (track_visit db now (Except.ok p) none).session.committed).mobile_visits =
      (get_analytics db).mobile_visits + (if p.isMobile.getD false then 1 else 0) ∧
    (get_analytics (track_visit db now (Except.ok p) none).session.committed).desktop_visits =
      (get_analytics db).desktop_visits + (if p.isMobile.getD false then 0 else 1) ∧
    (track_visit (track_visit db now (Except.ok p) none).session.committed now2
      (Except.ok p) none).status = 200 ∧
    (∃ v1 v2 : Visit,
      (track_visit (track_visit db now (Except.ok p) none).session.committed now2
        (Except.ok p) none).session.committed.visits = db.visits ++ [v1, v2] ∧ v1 ≠ v2) ∧
    (get_analytics (track_visit (track_visit db now (Except.ok p) none).session.committed now2
      (Except.ok p) none).session.committed).total_visits =
      (get_analytics db).total_visits + 2 := by
  refine ⟨rfl, ?_, ?_, ?_, rfl, ?_, ?_⟩
  · show (db.visits ++
        [Visit.mk db.nextVisitId now (p.isMobile.getD false) (p.screenResolution.getD "unknown")]).length =
      db.visits.length + 1
    simp
  · show (((db.visits ++
        [Visit.mk db.nextVisitId now (p.isMobile.getD false) (p.screenResolution.getD "unknown")]).filter
          (fun v => v.is_mobile)).map (fun _ => (1 : Nat))).sum =
      ((db.visits.filter (fun v => v.is_mobile)).map (fun _ => (1 : Nat))).sum +
        (if p.isMobile.getD false then 1 else 0)
    rw [sum_ones_filter, sum_ones_filter, List.countP_append]
    cases h : p.isMobile.getD false <;> simp [List.countP_cons, h]
  · show (((db.visits ++
        [Visit.mk db.nextVisitId now (p.isMobile.getD false) (p.screenResolution.getD "unknown")]).filter
          (fun v => !v.is_mobile)).map (fun _ => (1 : Nat))).sum =
      ((db.visits.filter (fun v => !v.is_mobile)).map (fun _ => (1 : Nat))).sum +
        (if p.isMobile.getD false then 0 else 1)
    rw [sum_ones_filter, sum_ones_filter, List.countP_append]
    cases h : p.isMobile.getD false <;> simp [List.countP_cons, h]
  · refine ⟨Visit.mk db.nextVisitId now (p.isMobile.getD false) (p.screenResolution.getD "unknown"),
      Visit.mk (db.nextVisitId + 1) now2 (p.isMobile.getD false) (p.screenResolution.getD "unknown"),
      ?_, ?_⟩
    · show (db.visits ++ [_]) ++ [_] = db.visits ++ [_, _]
      rw [List.append_assoc]
      rfl
    · intro h
      have := congrArg Visit.id h
      simp at this
  · show ((db.visits ++ [_]) ++ [_]).length = db.visits.length + 2
    simp

/-- C3: any failure, a body that could not be read or a storage failure at
commit, makes track-visit leave the committed store unchanged and answer a
500 error carrying that failure text; on every exit path, success or failure,
the session ends closed with no pending objects. -/
theorem track_visit_failure_discipline (db : DB) (now : DateTime)
    (req : Except String VisitPayload) (storageFail : Option String) :
    ((track_visit db now req storageFail).session.isOpen = false ∧
      (track_visit db now req storageFail).session.pendingVisits = [] ∧
      (track_visit db now req storageFail).session.pendingEvents = []) ∧
    (∀ msg, req = Except.error msg →
      (track_visit db now req storageFail).status = 500 ∧
      (track_visit db now req storageFail).resp = TrackResp.error msg ∧
      (track_visit db now req storageFail).session.committed = db) ∧
    (∀ p msg, req = Except.ok p → storageFail = some msg →
      (track_visit db now req storageFail).status = 500 ∧
      (track_visit db now req storageFail).resp = TrackResp.error msg ∧
      (track_visit db now req storageFail).session.committed = db) := by
  cases req with
  | error m =>
    refine ⟨⟨rfl, rfl, rfl⟩, ?_, ?_⟩
    · intro msg hmsg
      injection hmsg with h
      subst h
      exact ⟨rfl, rfl, rfl⟩
    · intro p msg hok hsf
      cases hok
  | ok p0 =>
    cases storageFail with
    | none =>
      refine ⟨⟨rfl, rfl, rfl⟩, ?_, ?_⟩
      · intro msg hmsg
        cases hmsg
      · intro p msg hok hsf
        cases hsf
    | some m =>
      refine ⟨⟨rfl, rfl, rfl⟩, ?_, ?_⟩
      · intro msg hmsg
        cases hmsg
      · intro p msg hok hsf
        injection hsf with h
        subst h
        exact ⟨rfl, rfl, rfl⟩

/-- Closed instances of the C3 theorem: an unreadable body and a storage
failure at commit, each against a concrete store. -/
theorem track_visit_failure_discipline_witness :
    ((track_visit (DB.mk [] [] 1 1) (DateTime.mk 2024 1 1 0)
        (Except.error "bad body") none).status = 500 ∧
      (track_visit (DB.mk [] [] 1 1) (DateTime.mk 2024 1 1 0)
        (Except.error "bad body") none).resp = TrackResp.error "bad body" ∧
      (track_visit (DB.mk [] [] 1 1) (DateTime.mk 2024 1 1 0)
        (Except.error "bad body") none).session.committed = DB.mk [] [] 1 1) ∧
    ((track_visit (DB.mk [] [] 1 1) (DateTime.mk 2024 1 1 0)
        (Except.ok (VisitPayload.mk none none)) (some "connection lost")).status = 500 ∧
      (track_visit (DB.mk [] [] 1 1) (DateTime.mk 2024 1 1 0)
        (Except.ok (VisitPayload.mk none none)) (some "connection lost")).resp =
          TrackResp.error "connection lost" ∧
      (track_visit (DB.mk [] [] 1 1) (DateTime.mk 2024 1 1 0)
        (Except.ok (VisitPayload.mk none none)) (some "connection lost")).session.committed =
          DB.mk [] [] 1 1) :=
  ⟨(track_visit_failure_discipline (DB.mk [] [] 1 1) (DateTime.mk 2024 1 1 0)
      (Except.error "bad body") none).2.1 "bad body" rfl,
    (track_visit_failure_discipline (DB.mk [] [] 1 1) (DateTime.mk 2024 1 1 0)
      (Except.ok (VisitPayload.mk none none)) (some "connection lost")).2.2
        (VisitPayload.mk none none) "connection lost" rfl rfl⟩

/-- C9: no operation rewrites history: each tracking handler at most appends
one row to its own table and leaves the other table alone, every pre-existing
row survives unchanged, and the two read routes leave the committed store
untouched. -/
theorem append_only_frame (db : DB) (now : DateTime)
    (reqV : Except String VisitPayload) (reqE : Except String EventPayload)
    (st1 st2 rf1 rf2 : Option String) :
    (∃ t, (track_visit db now reqV st1).session.committed.visits = db.visits ++ t ∧
      t.length ≤ 1) ∧
    ((track_visit db now reqV st1).session.committed.visits).take db.visits.length =
      db.visits ∧
    (track_visit db now reqV st1).session.committed.events = db.events ∧
    (track_event db now reqE st2).session.committed.visits = db.visits ∧
    (∃ t, (track_event db now reqE st2).session.committed.events = db.events ++ t ∧
      t.length ≤ 1) ∧
    ((track_event db now reqE st2).session.committed.events).take db.events.length =
      db.events ∧
    (analytics_route db rf1).session.committed = db ∧
    (dashboard_route db rf2).session.committed = db := by
  obtain ⟨tv, htv, htvlen⟩ :
      ∃ t, (track_visit db now reqV st1).session.committed.visits = db.visits ++ t ∧
        t.length ≤ 1 := by
    cases reqV with
    | error msg =>
      exact ⟨[], by show db.visits = db.visits ++ []; rw [List.append_nil], by simp⟩
    | ok p =>
      cases st1 with
      | none => exact ⟨[Visit.mk db.nextVisitId now (p.isMobile.getD false)
          (p.screenResolution.getD "unknown")], rfl, by simp⟩
      | some msg =>
        exact ⟨[], by show db.visits = db.visits ++ []; rw [List.append_nil], by simp⟩
  obtain ⟨te, hte, htelen⟩ :
      ∃ t, (track_event db now reqE st2).session.committed.events = db.events ++ t ∧
        t.length ≤ 1 := by
    cases reqE with
    | error msg =>
      exact ⟨[], by show db.events = db.events ++ []; rw [List.append_nil], by simp⟩
    | ok p =>
      obtain ⟨ty, d⟩ := p
      cases st2 with
      | none =>
        cases ty with
        | none =>
          exact ⟨[], by show db.events = db.events ++ []; rw [List.append_nil], by simp⟩
        | some t0 => exact ⟨[Event.mk db.nextEventId now t0 d], rfl, by simp⟩
      | some msg =>
        exact ⟨[], by show db.events = db.events ++ []; rw [List.append_nil], by simp⟩
  refine ⟨⟨tv, htv, htvlen⟩, ?_, ?_, ?_, ⟨te, hte, htelen⟩, ?_, ?_, ?_⟩
  · rw [htv]
    exact List.take_left _ _
  · cases reqV with
    | error msg => rfl
    | ok p => cases st1 with
      | none => rfl
      | some msg => rfl
  · cases reqE with
    | error msg => rfl
    | ok p =>
      obtain ⟨ty, d⟩ := p
      cases st2 with
      | none => cases ty <;> rfl
      | some msg => rfl
  · rw [hte]
    exact List.take_left _ _
  · cases rf1 with
    | none => rfl
    | some msg => rfl
  · cases rf2 with
    | none => rfl
    | some msg => rfl

/-! Lemmas about the per-date tally for C7. -/

/-- Keys after one bump: unchanged when the key is present, appended last
otherwise. -/
lemma bumpDate_keys (acc : List (String × Nat)) (k : String) :
    (bumpDate acc k).map Prod.fst =
      if k ∈ acc.map Prod.fst then acc.map Prod.fst else acc.map Prod.fst ++ [k] := by
  induction acc with
  | nil => simp [bumpDate]
  | cons hd tl ih =>
    obtain ⟨k0, n⟩ := hd
    by_cases h : k0 = k
    · subst h
      simp [bumpDate]
    · simp only [bumpDate, if_neg h, List.map_cons, List.mem_cons, ih]
      by_cases h2 : k ∈ tl.map Prod.fst
      · simp [h2, Ne.symm h]
      · simp [h2, Ne.symm h]

/-- Lookup after one bump: the bumped key gains one, every other key is
unchanged. -/
lemma bumpDate_lookup (acc : List (String × Nat)) (k k2 : String) :
    (bumpDate acc k).lookup k2 =
      if k2 = k then some ((acc.lookup k).getD 0 + 1) else acc.lookup k2 := by
  induction acc with
  | nil =>
    by_cases h : k2 = k
    · subst h
      simp [bumpDate]
    · have hb : (k2 == k) = false := beq_eq_false_iff_ne.mpr h
      simp [bumpDate, List.lookup_cons, hb, h]
  | cons hd tl ih =>
    obtain ⟨k0, n⟩ := hd
    by_cases h : k0 = k
    · subst h
      have hbd : bumpDate ((k0, n) :: tl) k0 = (k0, n + 1) :: tl := by
        simp [bumpDate]
      rw [hbd]
      by_cases h2 : k2 = k0
      · rw [h2, List.lookup_cons_self, if_pos rfl, List.lookup_cons_self]
        rfl
      · have hb : (k2 == k0) = false := beq_eq_false_iff_ne.mpr h2
        rw [List.lookup_cons, hb, if_neg h2, List.lookup_cons, hb]
    · have hbd : bumpDate ((k0, n) :: tl) k = (k0, n) :: bumpDate tl k := by
        simp [bumpDate, h]
      rw [hbd]
      by_cases h3 : k2 = k0
      · rw [h3, List.lookup_cons_self, if_neg h, List.lookup_cons_self]
      · have hb : (k2 == k0) = false := beq_eq_false_iff_ne.mpr h3
        rw [List.lookup_cons, hb, ih]
        by_cases h4 : k2 = k
        · have hbk : (k == k0) = false := beq_eq_false_iff_ne.mpr (fun hk => h hk.symm)
          rw [if_pos h4, if_pos h4, List.lookup_cons, hbk]
        · rw [if_neg h4, if_neg h4, List.lookup_cons, hb]

/-- Folding the visits into the tally: each key holds the number of visits
carrying that date, on top of whatever the accumulator held. -/
lemma foldl_bump_lookup (vs : List Visit) (acc : List (String × Nat)) (k : String) :
    (((vs.foldl (fun a v => bumpDate a v.timestamp.dateStr) acc).lookup k).getD 0) =
      ((acc.lookup k).getD 0) + vs.countP (fun v => v.timestamp.dateStr = k) := by
  induction vs generalizing acc with
  | nil => simp
  | cons v t ih =>
    rw [List.foldl_cons, ih, bumpDate_lookup, List.countP_cons]
    by_cases h : v.timestamp.dateStr = k
    · rw [if_pos h.symm]
      simp only [h, Option.getD_some]
      have hone : (if decide True = true then (1 : Nat) else 0) = 1 := rfl
      rw [hone]
      omega
    · have h2 : ¬ (k = v.timestamp.dateStr) := fun hk => h hk.symm
      rw [if_neg h2]
      simp [h]

/-- Membership in the tally keys: the starting keys plus every date that
occurs among the visits. -/
lemma foldl_bump_keys_mem (vs : List Visit) (acc : List (String × Nat)) (k : String) :
    (k ∈ (vs.foldl (fun a v => bumpDate a v.timestamp.dateStr) acc).map Prod.fst) ↔
      (k ∈ acc.map Prod.fst ∨ ∃ v ∈ vs, v.timestamp.dateStr = k) := by
  induction vs generalizing acc with
  | nil => simp
  | cons v t ih =>
    rw [List.foldl_cons, ih, bumpDate_keys]
    by_cases h : v.timestamp.dateStr ∈ acc.map Prod.fst
    · simp only [if_pos h]
      constructor
      · rintro (hk | hv)
        · exact Or.inl hk
        · exact Or.inr ⟨hv.choose, List.mem_cons_of_mem v hv.choose_spec.1, hv.choose_spec.2⟩
      · rintro (hk | ⟨v2, hv2, hdate⟩)
        · exact Or.inl hk
        · rcases List.mem_cons.mp hv2 with rfl | hv2t
          · exact Or.inl (hdate ▸ h)
          · exact Or.inr ⟨v2, hv2t, hdate⟩
    · simp only [if_neg h, List.mem_append, List.mem_singleton]
      constructor
      · rintro ((hk | hk) | hv)
        · exact Or.inl hk
        · exact Or.inr ⟨v, List.mem_cons_self v t, hk.symm⟩
        · exact Or.inr ⟨hv.choose, List.mem_cons_of_mem v hv.choose_spec.1, hv.choose_spec.2⟩
      · rintro (hk | ⟨v2, hv2, hdate⟩)
        · exact Or.inl (Or.inl hk)
        · rcases List.mem_cons.mp hv2 with rfl | hv2t
          · exact Or.inl (Or.inr hdate.symm)
          · exact Or.inr ⟨v2, hv2t, hdate⟩

/-- The tally keys stay distinct. -/
lemma foldl_bump_keys_nodup (vs : List Visit) (acc : List (String × Nat))
    (h : (acc.map Prod.fst).Nodup) :
    ((vs.foldl (fun a v => bumpDate a v.timestamp.dateStr) acc).map Prod.fst).Nodup := by
  induction vs generalizing acc with
  | nil => exact h
  | cons v t ih =>
    rw [List.foldl_cons]
    apply ih
    rw [bumpDate_keys]
    by_cases hmem : v.timestamp.dateStr ∈ acc.map Prod.fst
    · simpa [hmem] using h
    · rw [if_neg hmem]
      refine List.Nodup.append h (List.nodup_singleton _) ?_
      intro a ha hb
      rw [List.mem_singleton] at hb
      exact hmem (hb ▸ ha)

/-- A sum of indicators over a list without the key is zero. -/
lemma sum_indicator_zero (ds : List String) (k : String) (h : k ∉ ds) :
    (ds.map (fun d => if k = d then (1 : Nat) else 0)).sum = 0 := by
  induction ds with
  | nil => rfl
  | cons d t ih =>
    simp only [List.mem_cons] at h
    push_neg at h
    simp [h.1, ih h.2]

/-- A sum of indicators over a duplicate-free list holding the key is one. -/
lemma sum_indicator_one (ds : List String) (k : String) (hmem : k ∈ ds) (hnd : ds.Nodup) :
    (ds.map (fun d => if k = d then (1 : Nat) else 0)).sum = 1 := by
  induction ds with
  | nil => cases hmem
  | cons d t ih =>
    rw [List.nodup_cons] at hnd
    rcases List.mem_cons.mp hmem with h | h
    · subst h
      simp [sum_indicator_zero t k hnd.1]
    · have hkd : k ≠ d := by
        rintro rfl
        exact hnd.1 h
      simp [hkd, ih h hnd.2]

/-- Pointwise sums of maps split. -/
lemma sum_map_add {α : Type} (l : List α) (f g : α → Nat) :
    (l.map (fun x => f x + g x)).sum = (l.map f).sum + (l.map g).sum := by
  induction l with
  | nil => rfl
  | cons a t ih => simp [ih]; omega

/-- Summing the per-date counts over a duplicate-free list of dates covering
every visit recovers the number of visits. -/
lemma sum_countP_eq_length (ds : List String) (vs : List Visit)
    (hnd : ds.Nodup) (hcov : ∀ v ∈ vs, v.timestamp.dateStr ∈ ds) :
    (ds.map (fun d => vs.countP (fun v => v.timestamp.dateStr = d))).sum = vs.length := by
  induction vs with
  | nil => simp
  | cons v t ih =>
    have hstep : (fun d => List.countP (fun v2 => decide (v2.timestamp.dateStr = d)) (v :: t)) =
        fun d => (if v.timestamp.dateStr = d then 1 else 0) +
          List.countP (fun v2 => decide (v2.timestamp.dateStr = d)) t := by
      funext d
      rw [List.countP_cons]
      by_cases h : v.timestamp.dateStr = d
      · simp [h]
        omega
      · simp [h]
    show (ds.map (fun d => List.countP (fun v2 => decide (v2.timestamp.dateStr = d)) (v :: t))).sum =
      (v :: t).length
    rw [hstep, sum_map_add ds _ _]
    have hcovt : ∀ v2 ∈ t, v2.timestamp.dateStr ∈ ds :=
      fun v2 hv2 => hcov v2 (List.mem_cons_of_mem v hv2)
    have : (ds.map (fun d => if v.timestamp.dateStr = d then (1 : Nat) else 0)).sum = 1 :=
      sum_indicator_one ds v.timestamp.dateStr (hcov v (List.mem_cons_self v t)) hnd
    rw [this, ih hcovt, List.length_cons]
    omega

/-- C7: the dashboard time series lists exactly the distinct dates of the
stored visits in ascending order (every listed date is the date of some stored
visit) together with, per date, the number of visits whose timestamp falls on
that date, and the counts sum to the total visit count. -/
theorem dashboard_time_series (db : DB) :
    (dashboard db).visit_dates.Pairwise (fun a b => a ≤ b) ∧
    (dashboard db).visit_dates.Nodup ∧
    (∀ d ∈ (dashboard db).visit_dates, ∃ v ∈ db.visits, v.timestamp.dateStr = d) ∧
    (dashboard db).visit_counts =
      (dashboard db).visit_dates.map
        (fun d => db.visits.countP (fun v => v.timestamp.dateStr = d)) ∧
    (dashboard db).visit_counts.sum = (dashboard db).total_visits := by
  have hperm : List.Perm (sortedVisits db) db.visits :=
    List.mergeSort_perm db.visits _
  have hdates : (dashboard db).visit_dates = sortedDates (visitDatesDict (sortedVisits db)) :=
    rfl
  have hcounts : (dashboard db).visit_counts =
      (sortedDates (visitDatesDict (sortedVisits db))).map
        (fun d => ((visitDatesDict (sortedVisits db)).lookup d).getD 0) :=
    rfl
  have htot : (dashboard db).total_visits = (sortedVisits db).length := rfl
  have hkeysnodup : ((visitDatesDict (sortedVisits db)).map Prod.fst).Nodup := by
    rw [visitDatesDict]
    exact foldl_bump_keys_nodup (sortedVisits db) [] (by simp)
  have hsortperm : List.Perm (sortedDates (visitDatesDict (sortedVisits db)))
      ((visitDatesDict (sortedVisits db)).map Prod.fst) :=
    List.mergeSort_perm _ _
  have hnodup : (sortedDates (visitDatesDict (sortedVisits db))).Nodup :=
    hsortperm.nodup_iff.mpr hkeysnodup
  have hlook : ∀ d, (((visitDatesDict (sortedVisits db)).lookup d).getD 0) =
      db.visits.countP (fun v => v.timestamp.dateStr = d) := by
    intro d
    rw [visitDatesDict, foldl_bump_lookup (sortedVisits db) [] d]
    simp [hperm.countP_eq]
  have hcnt : (dashboard db).visit_counts =
      (dashboard db).visit_dates.map
        (fun d => db.visits.countP (fun v => v.timestamp.dateStr = d)) := by
    rw [hcounts, hdates]
    exact List.map_congr_left (fun d _ => hlook d)
  have hcompl : ∀ d ∈ (dashboard db).visit_dates, ∃ v ∈ db.visits, v.timestamp.dateStr = d := by
    intro d hd
    rw [hdates, sortedDates, List.mem_mergeSort, visitDatesDict, foldl_bump_keys_mem] at hd
    rcases hd with h | ⟨v, hv, hdate⟩
    · simp at h
    · exact ⟨v, hperm.mem_iff.mp hv, hdate⟩
  refine ⟨?_, hnodup, hcompl, hcnt, ?_⟩
  · rw [hdates, sortedDates]
    have hs := @List.sorted_mergeSort String (fun a b => decide (a ≤ b))
      (fun a b c hab hbc =>
        decide_eq_true (le_trans (of_decide_eq_true hab) (of_decide_eq_true hbc)))
      (fun a b => by
        rcases le_total a b with h | h
        · simp [h]
        · simp [h])
      ((visitDatesDict (sortedVisits db)).map Prod.fst)
    exact hs.imp (fun hab => of_decide_eq_true hab)
  · rw [hcnt, hdates, htot]
    have hcov : ∀ v ∈ db.visits,
        v.timestamp.dateStr ∈ sortedDates (visitDatesDict (sortedVisits db)) := by
      intro v hv
      rw [sortedDates, List.mem_mergeSort, visitDatesDict, foldl_bump_keys_mem]
      exact Or.inr ⟨v, hperm.mem_iff.mpr hv, rfl⟩
    rw [sum_countP_eq_length _ db.visits hnodup hcov]
    exact hperm.length_eq.symm

/-- Closed instance of the C7 theorem at a one-visit store: the single listed
date is the date of the stored visit. -/
theorem dashboard_time_series_witness :
    "2024-01-02" ∈ (dashboard (DB.mk [Visit.mk 1 (DateTime.mk 2024 1 2 0) false "800x600"]
      [] 2 1)).visit_dates ∧
    ∃ v ∈ (DB.mk [Visit.mk 1 (DateTime.mk 2024 1 2 0) false "800x600"] [] 2 1).visits,
      v.timestamp.dateStr = "2024-01-02" := by
  have hd : (dashboard (DB.mk [Visit.mk 1 (DateTime.mk 2024 1 2 0) false "800x600"]
      [] 2 1)).visit_dates = ["2024-01-02"] := by
    show sortedDates (visitDatesDict (sortedVisits
      (DB.mk [Visit.mk 1 (DateTime.mk 2024 1 2 0) false "800x600"] [] 2 1))) = _
    rw [sortedVisits, List.mergeSort_singleton]
    show sortedDates [((DateTime.mk 2024 1 2 0).dateStr, 1)] = _
    rw [sortedDates]
    show List.mergeSort [(DateTime.mk 2024 1 2 0).dateStr] (fun a b => decide (a ≤ b)) = _
    rw [List.mergeSort_singleton]
    show [(DateTime.mk 2024 1 2 0).dateStr] = ["2024-01-02"]
    rfl
  have hmem : "2024-01-02" ∈ (dashboard (DB.mk
      [Visit.mk 1 (DateTime.mk 2024 1 2 0) false "800x600"] [] 2 1)).visit_dates := by
    rw [hd]
    exact List.mem_singleton_self _
  exact ⟨hmem, (dashboard_time_series (DB.mk
    [Visit.mk 1 (DateTime.mk 2024 1 2 0) false "800x600"] [] 2 1)).2.2.1 "2024-01-02" hmem⟩
